import Mathlib

/-!
Verification of the dentapp clinic-management backend (Python/FastAPI + MongoDB).

Conventions of the shallow embedding:
* Python `float` amounts are modelled as exact rationals `ℚ`; `round(x, 2)`
  is modelled as `round2`, rounding to the nearest multiple of 1/100 with
  ties going to the even multiple (banker's rounding, as Python's `round`).
* Python `str` is modelled as `List Char` (a sequence of code points).
* MongoDB collections are modelled as lists of documents; `find_one` is the
  first match, `update_one`/`delete_one` act on the first match.
* Dates/datetimes are modelled at day granularity as `Int` day numbers where
  only day differences matter.
* Fallible route handlers are modelled as functions returning the possibly
  updated database state together with `Except HTTPError result`.
-/

/-- Round a rational to the nearest integer, ties to the even integer
(the rounding used by Python's builtin `round`). -/
def roundHalfEven (x : ℚ) : ℤ :=
  let f : ℤ := ⌊x⌋
  let r : ℚ := x - f
  if r < 1/2 then f
  else if 1/2 < r then f + 1
  else if f % 2 = 0 then f else f + 1

/-- Model of Python's `round(x, 2)`: round to the nearest multiple of 1/100. -/
def round2 (x : ℚ) : ℚ := (roundHalfEven (100 * x) : ℚ) / 100

/-- A rational is a whole number of cents (an exact two-decimal amount). -/
def IsCents (x : ℚ) : Prop := ∃ k : ℤ, x = (k : ℚ) / 100

/-- Invoice line, from `app/models/factura.py` (`LineaFactura`).  Only the
fields used by the claims are carried. -/
structure LineaFactura where
  concepto : List Char
  cantidad : ℚ
  precio_unitario : ℚ
  descuento : ℚ
  tipo_iva : List Char
  base_imponible : ℚ
  cuota_iva : ℚ
  total_linea : ℚ
  deriving DecidableEq, Repr

/-- The VAT-rate dictionary `iva_porcentaje` of
`FacturacionService.calcular_linea_factura`. -/
def iva_porcentaje : List (List Char × ℚ) :=
  [(['2','1'], 21/100), (['1','0'], 10/100), (['4'], 4/100), (['0'], 0),
   (['e','x','e','n','t','o'], 0)]

/-- Membership in the pydantic `Literal["21", "10", "4", "0", "exento"]`
type of `LineaFactura.tipo_iva` (`app/models/factura.py`, line 48). -/
def tipoIvaPermitido (t : List Char) : Bool :=
  t == ['2','1'] || t == ['1','0'] || t == ['4'] || t == ['0']
    || t == ['e','x','e','n','t','o']

/-- Pydantic validation failure of a model constructor: the fields whose
constraints were violated. -/
inductive ValidationError where
  | invalidFields (fields : List (List Char))
  deriving DecidableEq

/-- The field constraints the `LineaFactura` pydantic model checks on
construction (`app/models/factura.py`, lines 42-51): `ge`/`le` bounds on
the numeric fields and the `Literal` type of `tipo_iva`; the violated
fields, in declaration order. -/
def lineaFacturaViolations (l : LineaFactura) : List (List Char) :=
  (if 0 ≤ l.cantidad then [] else [['c','a','n','t','i','d','a','d']]) ++
  (if 0 ≤ l.precio_unitario then []
    else [['p','r','e','c','i','o','_','u','n','i','t','a','r','i','o']]) ++
  (if 0 ≤ l.descuento ∧ l.descuento ≤ 100 then []
    else [['d','e','s','c','u','e','n','t','o']]) ++
  (if tipoIvaPermitido l.tipo_iva then [] else [['t','i','p','o','_','i','v','a']]) ++
  (if 0 ≤ l.base_imponible then []
    else [['b','a','s','e','_','i','m','p','o','n','i','b','l','e']]) ++
  (if 0 ≤ l.cuota_iva then [] else [['c','u','o','t','a','_','i','v','a']]) ++
  (if 0 ≤ l.total_linea then [] else [['t','o','t','a','l','_','l','i','n','e','a']])

/-- The `LineaFactura(...)` constructor call: the populated model when all
field constraints hold, a `ValidationError` naming the violated fields
otherwise. -/
def validarLineaFactura (l : LineaFactura) : Except ValidationError LineaFactura :=
  if lineaFacturaViolations l = [] then .ok l
  else .error (.invalidFields (lineaFacturaViolations l))

/-- Embedding of `FacturacionService.calcular_linea_factura`
(`app/services/facturacion.py`, lines 17-53): the arithmetic on the raw
inputs followed by the `LineaFactura` constructor, which validates its
fields (in particular the `Literal` type of `tipo_iva`) and raises a
pydantic `ValidationError` when one fails. -/
def calcular_linea_factura (concepto : List Char) (cantidad precio_unitario : ℚ)
    (tipo_iva : List Char) (descuento : ℚ) : Except ValidationError LineaFactura :=
  let subtotal_linea := cantidad * precio_unitario
  let importe_descuento := if 0 < descuento then subtotal_linea * (descuento / 100) else 0
  let base_imponible := subtotal_linea - importe_descuento
  let cuota_iva := base_imponible * ((iva_porcentaje.lookup tipo_iva).getD (21/100))
  let total_linea := base_imponible + cuota_iva
  validarLineaFactura
    { concepto := concepto
      cantidad := cantidad
      precio_unitario := precio_unitario
      descuento := descuento
      tipo_iva := tipo_iva
      base_imponible := round2 base_imponible
      cuota_iva := round2 cuota_iva
      total_linea := round2 total_linea }

/-- Result of `FacturacionService.calcular_totales_factura` (a Python dict
with these three keys). -/
structure TotalesFactura where
  subtotal : ℚ
  total_iva : ℚ
  total_factura : ℚ
  deriving DecidableEq, Repr

/-- Embedding of `FacturacionService.calcular_totales_factura`
(`app/services/facturacion.py`, lines 55-66). -/
def calcular_totales_factura (lineas : List LineaFactura) : TotalesFactura :=
  { subtotal := round2 ((lineas.map (fun l => l.base_imponible)).sum)
    total_iva := round2 ((lineas.map (fun l => l.cuota_iva)).sum)
    total_factura := round2 ((lineas.map (fun l => l.total_linea)).sum) }

/-- Spec-side VAT-rate mapping, written as the claim enumerates it:
"21"->0.21, "10"->0.10, "4"->0.04, "0"->0.00, "exento"->0.00,
any other string -> 0.21. -/
def tasaIvaSpec (t : List Char) : ℚ :=
  if t = ['2','1'] then 21/100
  else if t = ['1','0'] then 10/100
  else if t = ['4'] then 4/100
  else if t = ['0'] then 0
  else if t = ['e','x','e','n','t','o'] then 0
  else 21/100

/-- A concrete invoice line whose stored `total_linea` is not the sum of its
stored `base_imponible` and `cuota_iva` columns. -/
def lineaMismatch : LineaFactura :=
  { concepto := ['x'], cantidad := 1, precio_unitario := 1, descuento := 0,
    tipo_iva := ['2','1'], base_imponible := 1, cuota_iva := 1, total_linea := 5 }

/-- A concrete well-formed invoice line (1 unit at 1.00 with 21% VAT). -/
def lineaEjemplo : LineaFactura :=
  { concepto := ['a'], cantidad := 1, precio_unitario := 1, descuento := 0,
    tipo_iva := ['2','1'], base_imponible := 1, cuota_iva := 21/100,
    total_linea := 121/100 }

/-- Spec-side description of the decimal rendering of a natural number:
most-significant digit first, with `0` rendered as "0". -/
def bigDigits (n : Nat) : List Char :=
  if n = 0 then ['0'] else ((Nat.digits 10 n).map Nat.digitChar).reverse

/-- Python's format spec `{m:04d}`: decimal digits of `m` left-padded with
zeros to width (at least) 4.  `Nat.toDigits 10` is Lean core's decimal
rendering, the embedding of Python's `str`/f-string rendering of an int. -/
def pad4 (m : Nat) : List Char :=
  List.replicate (4 - (Nat.toDigits 10 m).length) '0' ++ Nat.toDigits 10 m

/-- Embedding of `FacturacionService.generar_numero_factura`
(`app/services/facturacion.py`, lines 68-72):
`f"F{anio}-{serie}{nuevo_numero:04d}"` with `nuevo_numero = ultimo_numero + 1`. -/
def generar_numero_factura (serie : List Char) (anio : Nat) (ultimo_numero : Nat) : List Char :=
  ('F' :: Nat.toDigits 10 anio) ++ ('-' :: (serie ++ pad4 (ultimo_numero + 1)))

/-- Python's `int(s)` on the strings arising here: an all-digit, non-empty
string parses to its decimal value (leading zeros allowed); anything else
raises `ValueError`, modelled as `none`. -/
def pyInt? (l : List Char) : Option Nat :=
  if l.isEmpty then none
  else if l.all (fun c => c.isDigit) then
    some (l.foldl (fun n c => n * 10 + (c.toNat - 48)) 0)
  else none

/-- The number extraction performed by `crear_factura`
(`app/api/routes/facturas.py`, lines 49-55): split the stored `numero` on
"-", take the second part, drop its first character (the series letter) and
parse the rest as an int; any failure is caught and yields 0. -/
def extraerUltimoNumero (numero : List Char) : Nat :=
  match (numero.splitOn '-')[1]? with
  | some parte => (pyInt? (parte.drop 1)).getD 0
  | none => 0

/-! ### SHA-256 (the hash used by `generar_hash_verifactu`), over byte lists -/

/-- Rotate a 32-bit word right by `n`. -/
def rotr32 (n x : Nat) : Nat := ((x >>> n) ||| (x <<< (32 - n))) % 2 ^ 32

/-- SHA-256 Ch function (32-bit). -/
def sha256ch (x y z : Nat) : Nat := (x &&& y) ^^^ ((x ^^^ 4294967295) &&& z)

/-- SHA-256 Maj function (32-bit). -/
def sha256maj (x y z : Nat) : Nat := (x &&& y) ^^^ (x &&& z) ^^^ (y &&& z)

/-- SHA-256 big sigma 0. -/
def bsig0 (x : Nat) : Nat := rotr32 2 x ^^^ rotr32 13 x ^^^ rotr32 22 x

/-- SHA-256 big sigma 1. -/
def bsig1 (x : Nat) : Nat := rotr32 6 x ^^^ rotr32 11 x ^^^ rotr32 25 x

/-- SHA-256 small sigma 0. -/
def ssig0 (x : Nat) : Nat := rotr32 7 x ^^^ rotr32 18 x ^^^ (x >>> 3)

/-- SHA-256 small sigma 1. -/
def ssig1 (x : Nat) : Nat := rotr32 17 x ^^^ rotr32 19 x ^^^ (x >>> 10)

/-- SHA-256 round constants. -/
def sha256K : List Nat :=
  [1116352408, 1899447441, 3049323471, 3921009573,
   961987163, 1508970993, 2453635748, 2870763221,
   3624381080, 310598401, 607225278, 1426881987,
   1925078388, 2162078206, 2614888103, 3248222580,
   3835390401, 4022224774, 264347078, 604807628,
   770255983, 1249150122, 1555081692, 1996064986,
   2554220882, 2821834349, 2952996808, 3210313671,
   3336571891, 3584528711, 113926993, 338241895,
   666307205, 773529912, 1294757372, 1396182291,
   1695183700, 1986661051, 2177026350, 2456956037,
   2730485921, 2820302411, 3259730800, 3345764771,
   3516065817, 3600352804, 4094571909, 275423344,
   430227734, 506948616, 659060556, 883997877,
   958139571, 1322822218, 1537002063, 1747873779,
   1955562222, 2024104815, 2227730452, 2361852424,
   2428436474, 2756734187, 3204031479, 3329325298]

/-- Big-endian 64-bit length encoding (8 bytes). -/
def be64 (n : Nat) : List Nat :=
  [(n >>> 56) % 256, (n >>> 48) % 256, (n >>> 40) % 256, (n >>> 32) % 256,
   (n >>> 24) % 256, (n >>> 16) % 256, (n >>> 8) % 256, n % 256]

/-- Big-endian 32-bit word as 4 bytes. -/
def be32 (n : Nat) : List Nat :=
  [(n >>> 24) % 256, (n >>> 16) % 256, (n >>> 8) % 256, n % 256]

/-- SHA-256 message padding: append 0x80, zero bytes to 56 mod 64, then the
bit length as 8 big-endian bytes. -/
def sha256pad (msg : List Nat) : List Nat :=
  let zeros := (64 - (msg.length + 9) % 64) % 64
  msg ++ (128 :: (List.replicate zeros 0 ++ be64 (8 * msg.length)))

/-- Group a byte list into big-endian 32-bit words. -/
def toWordsBE : List Nat → List Nat
  | b0 :: b1 :: b2 :: b3 :: rest =>
    (((b0 * 256 + b1) * 256 + b2) * 256 + b3) :: toWordsBE rest
  | _ => []

/-- Split a byte list into 64-byte blocks. -/
def chunks64 (l : List Nat) : List (List Nat) :=
  if h : l = [] then [] else l.take 64 :: chunks64 (l.drop 64)
termination_by l.length
decreasing_by
  simp only [List.length_drop]
  exact Nat.sub_lt (List.length_pos.mpr h) (by norm_num)

/-- Extend the 16 message-schedule words to 64. -/
def sha256schedule (ws : List Nat) : Array Nat :=
  (List.range 48).foldl
    (fun w i =>
      w.push ((w.getD i 0 + ssig0 (w.getD (i + 1) 0) + w.getD (i + 9) 0
        + ssig1 (w.getD (i + 14) 0)) % 2 ^ 32))
    ws.toArray

/-- SHA-256 working state (a..h). -/
structure Hash8 where
  a : Nat
  b : Nat
  c : Nat
  d : Nat
  e : Nat
  f : Nat
  g : Nat
  h : Nat

/-- One SHA-256 compression round. -/
def sha256round (s : Hash8) (k w : Nat) : Hash8 :=
  let t1 := (s.h + bsig1 s.e + sha256ch s.e s.f s.g + k + w) % 2 ^ 32
  let t2 := (bsig0 s.a + sha256maj s.a s.b s.c) % 2 ^ 32
  { a := (t1 + t2) % 2 ^ 32, b := s.a, c := s.b, d := s.c,
    e := (s.d + t1) % 2 ^ 32, f := s.e, g := s.f, h := s.g }

/-- Compress one 64-byte block into the running hash state. -/
def sha256compress (hs : Hash8) (block : List Nat) : Hash8 :=
  let w := sha256schedule (toWordsBE block)
  let s := (List.range 64).foldl
    (fun s t => sha256round s (sha256K.getD t 0) (w.getD t 0)) hs
  { a := (hs.a + s.a) % 2 ^ 32, b := (hs.b + s.b) % 2 ^ 32,
    c := (hs.c + s.c) % 2 ^ 32, d := (hs.d + s.d) % 2 ^ 32,
    e := (hs.e + s.e) % 2 ^ 32, f := (hs.f + s.f) % 2 ^ 32,
    g := (hs.g + s.g) % 2 ^ 32, h := (hs.h + s.h) % 2 ^ 32 }

/-- SHA-256 initial hash state. -/
def sha256H0 : Hash8 :=
  { a := 1779033703, b := 3144134277, c := 1013904242, d := 2773480762,
    e := 1359893119, f := 2600822924, g := 528734635, h := 1541459225 }

/-- SHA-256 of a byte list, as 32 bytes. -/
def sha256 (msg : List Nat) : List Nat :=
  let fin := (chunks64 (sha256pad msg)).foldl sha256compress sha256H0
  be32 fin.a ++ be32 fin.b ++ be32 fin.c ++ be32 fin.d
    ++ be32 fin.e ++ be32 fin.f ++ be32 fin.g ++ be32 fin.h

/-- Lowercase hexadecimal digit character. -/
def hexChar (n : Nat) : Char :=
  if n < 10 then Char.ofNat (48 + n) else Char.ofNat (87 + n)

/-- Lowercase hex rendering of a byte list (Python's `hexdigest()`). -/
def bytesToHex (bs : List Nat) : List Char :=
  bs.flatMap (fun b => [hexChar (b / 16), hexChar (b % 16)])

/-- Model of `hashlib.sha256(...).hexdigest()` over a byte string. -/
def sha256hex (msg : List Nat) : List Char := bytesToHex (sha256 msg)

/-- UTF-8 bytes of one code point (Python `str.encode()`). -/
def utf8Bytes (c : Char) : List Nat :=
  let n := c.toNat
  if n < 128 then [n]
  else if n < 2048 then [192 + n / 64, 128 + n % 64]
  else if n < 65536 then [224 + n / 4096, 128 + (n / 64) % 64, 128 + n % 64]
  else [240 + n / 262144, 128 + (n / 4096) % 64, 128 + (n / 64) % 64, 128 + n % 64]

/-- UTF-8 encoding of a string. -/
def utf8Encode (s : List Char) : List Nat := s.flatMap utf8Bytes

/-! ### json.dumps fragment used by `generar_hash_verifactu` -/

/-- Opening brace character (written via its code point). -/
def lbrace : Char := Char.ofNat 123

/-- Closing brace character (written via its code point). -/
def rbrace : Char := Char.ofNat 125

/-- Four lowercase hex digits. -/
def hex4 (n : Nat) : List Char :=
  [hexChar (n / 4096 % 16), hexChar (n / 256 % 16), hexChar (n / 16 % 16), hexChar (n % 16)]

/-- Escaping of one character as `json.dumps` does with its default
`ensure_ascii=True`: two-character escapes for quote, backslash and common
control characters, `\uXXXX` for other control and all non-ASCII characters
(surrogate pairs beyond the BMP), the character itself otherwise. -/
def jsonEscChar (c : Char) : List Char :=
  let n := c.toNat
  if c = '"' then ['\\', '"']
  else if c = '\\' then ['\\', '\\']
  else if n = 10 then ['\\', 'n']
  else if n = 9 then ['\\', 't']
  else if n = 13 then ['\\', 'r']
  else if n = 8 then ['\\', 'b']
  else if n = 12 then ['\\', 'f']
  else if n < 32 ∨ 126 < n then
    if n < 65536 then '\\' :: ('u' :: hex4 n)
    else
      ('\\' :: ('u' :: hex4 (55296 + (n - 65536) / 1024)))
        ++ ('\\' :: ('u' :: hex4 (56320 + (n - 65536) % 1024)))
  else [c]

/-- A JSON string literal. -/
def jsonQuote (s : List Char) : List Char :=
  '"' :: (s.flatMap jsonEscChar ++ ['"'])

/-- A JSON value that is either a string or `null` (Python `None`). -/
def jsonOptStr : Option (List Char) → List Char
  | none => ['n','u','l','l']
  | some s => jsonQuote s

/-- Model of `json.dumps` of a flat object with pre-rendered values, with the
default separators `", "` and `": "`. -/
def jsonObj (fields : List (List Char × List Char)) : List Char :=
  lbrace :: (List.intercalate [',', ' ']
    (fields.map (fun kv => jsonQuote kv.1 ++ (':' :: (' ' :: kv.2)))) ++ [rbrace])

/-- The invoice dictionary passed to `generar_hash_verifactu`.  The five
fields the function reads are explicit; `str()` renderings
(`fecha_emision`, `total_factura`) are carried as the rendered strings.
The remaining document content (`lineas`, `subtotal`, `estado` and any
other keys) is carried so that independence from it can be stated. -/
structure FacturaData where
  numero : Option (List Char)
  fecha_emision : List Char
  emisor_nif : Option (List Char)
  receptor_nombre : Option (List Char)
  total_factura : List Char
  lineas : List LineaFactura
  subtotal : ℚ
  estado : List Char
  otros : List (List Char × List Char)

/-- The `campos_hash` dict of `generar_hash_verifactu`
(`app/services/facturacion.py`, lines 74-88), already in the key order
produced by `json.dumps(..., sort_keys=True)`:
emisor_nif < fecha_emision < numero < receptor_nombre < total_factura. -/
def campos_hash (f : FacturaData) : List (List Char × List Char) :=
  [(['e','m','i','s','o','r','_','n','i','f'], jsonOptStr f.emisor_nif),
   (['f','e','c','h','a','_','e','m','i','s','i','o','n'], jsonQuote f.fecha_emision),
   (['n','u','m','e','r','o'], jsonOptStr f.numero),
   (['r','e','c','e','p','t','o','r','_','n','o','m','b','r','e'], jsonOptStr f.receptor_nombre),
   (['t','o','t','a','l','_','f','a','c','t','u','r','a'], jsonQuote f.total_factura)]

/-- Embedding of `FacturacionService.generar_hash_verifactu`
(`app/services/facturacion.py`, lines 74-88):
SHA-256 hex digest of the sorted-key JSON dump of the five core fields. -/
def generar_hash_verifactu (f : FacturaData) : List Char :=
  sha256hex (utf8Encode (jsonObj (campos_hash f)))

/-- A concrete invoice dictionary. -/
def facturaDataA : FacturaData :=
  { numero := some ['F','2','0','2','5','-','A','0','0','0','1'],
    fecha_emision := ['2','0','2','5','-','0','1','-','0','2'],
    emisor_nif := some ['B','1','2','3','4','5','6','7','8'],
    receptor_nombre := some ['M','a','r','i','a'],
    total_factura := ['1','2','1','.','0'],
    lineas := [lineaEjemplo],
    subtotal := 1,
    estado := ['b','o','r','r','a','d','o','r'],
    otros := [] }

/-- Same five core fields as `facturaDataA`, every other field different. -/
def facturaDataB : FacturaData :=
  { numero := some ['F','2','0','2','5','-','A','0','0','0','1'],
    fecha_emision := ['2','0','2','5','-','0','1','-','0','2'],
    emisor_nif := some ['B','1','2','3','4','5','6','7','8'],
    receptor_nombre := some ['M','a','r','i','a'],
    total_factura := ['1','2','1','.','0'],
    lineas := [],
    subtotal := 55,
    estado := ['p','a','g','a','d','a'],
    otros := [(['x'], ['y'])] }

/-! ### Analytics service (`app/services/analytics_service.py`) -/

/-- A patient document as `calculate_patient_ltv` reads it: its `_id` and
its optional `name` field. -/
structure Patient where
  id : List Char
  name : Option (List Char)

/-- An invoice document as the analytics service reads it:
`receptor.nombre_completo` (absent modelled as `none`), `estado`, and the
optional `total_factura` amount. -/
structure FacturaDocA where
  receptor_nombre : Option (List Char)
  estado : List Char
  total_factura : Option ℚ

/-- The collections touched by `calculate_patient_ltv`. -/
structure AnalyticsDB where
  patients : List Patient
  facturas : List FacturaDocA

/-- The Mongo filter `{"estado": {"$in": ["emitida", "pagada"]}}`. -/
def estadoFacturada (e : List Char) : Bool :=
  e == ['e','m','i','t','i','d','a'] || e == ['p','a','g','a','d','a']

/-- Embedding of `AnalyticsService.calculate_patient_ltv`
(`app/services/analytics_service.py`, lines 51-71): fetch invoices whose
receptor name exists and whose estado is emitida/pagada, look the patient
up by id (0 if absent), keep the invoices whose receptor name equals the
patient's name, sum `total_factura` (missing → 0) and round. -/
def calculate_patient_ltv (patient_id : List Char) (db : AnalyticsDB) : ℚ :=
  let facturas := db.facturas.filter
    (fun f => f.receptor_nombre.isSome && estadoFacturada f.estado)
  match db.patients.find? (fun p => p.id == patient_id) with
  | none => 0
  | some patient =>
    let patient_facturas := facturas.filter (fun f => f.receptor_nombre == patient.name)
    round2 ((patient_facturas.map (fun f => f.total_factura.getD 0)).sum)

/-- Spec-side attribution: an invoice billed (emitida/pagada) to the named
patient — both names present and equal. -/
def atribuidaA (p : Patient) (f : FacturaDocA) : Bool :=
  estadoFacturada f.estado &&
    match p.name, f.receptor_nombre with
    | some a, some b => a == b
    | _, _ => false

/-- An appointment as `_calculate_churn_risk` reads it: its date, at day
granularity. -/
structure Appointment where
  date : Int

/-- Python's `max(appointments, key=lambda x: x.get("date", ...))`: the
first appointment with the maximal date. -/
def pyMaxByDate (a : Appointment) (rest : List Appointment) : Appointment :=
  rest.foldl (fun best x => if best.date < x.date then x else best) a

/-- Embedding of `AnalyticsService._calculate_churn_risk`
(`app/services/analytics_service.py`, lines 196-219).  `now` stands for
`datetime.utcnow()`; `days_since_last` is the day difference to the most
recent appointment. -/
def calculate_churn_risk (now : Int) (visits : Nat) (avg_days : ℚ)
    (appointments : List Appointment) : List Char :=
  match appointments with
  | [] => ['a','l','t','o']
  | a :: rest =>
    let last := pyMaxByDate a rest
    let days_since_last : Int := now - last.date
    if 0 < avg_days ∧ 2 < (days_since_last : ℚ) / avg_days then ['a','l','t','o']
    else if 0 < avg_days ∧ 3/2 < (days_since_last : ℚ) / avg_days then ['m','e','d','i','o']
    else if visits < 3 then ['m','e','d','i','o']
    else ['b','a','j','o']

/-- A Python value as it appears among pydantic constructor kwargs. -/
inductive PyVal where
  | pint (n : Int)
  | pnum (q : ℚ)
  | pdt (d : Int)

/-- An appointment as `analyze_conversion_funnel` reads it. -/
structure ApptA where
  status : Option (List Char)
  treatment_name : Option (List Char)

/-- Python truthiness of `a.get("treatment_name")`: `None` and the empty
string are falsy. -/
def truthyStr : Option (List Char) → Bool
  | none => false
  | some s => !s.isEmpty
/-- The literal key string "period_start". -/
def kPeriodStart : List Char := ['p','e','r','i','o','d','_','s','t','a','r','t']

/-- The literal key string "period_end". -/
def kPeriodEnd : List Char := ['p','e','r','i','o','d','_','e','n','d']

/-- The literal key string "total_inquiries". -/
def kTotalInquiries : List Char := ['t','o','t','a','l','_','i','n','q','u','i','r','i','e','s']

/-- The literal key string "scheduled_appointments". -/
def kScheduledAppointments : List Char := ['s','c','h','e','d','u','l','e','d','_','a','p','p','o','i','n','t','m','e','n','t','s']

/-- The literal key string "completed_appointments". -/
def kCompletedAppointments : List Char := ['c','o','m','p','l','e','t','e','d','_','a','p','p','o','i','n','t','m','e','n','t','s']

/-- The literal key string "evaluations_done". -/
def kEvaluationsDone : List Char := ['e','v','a','l','u','a','t','i','o','n','s','_','d','o','n','e']

/-- The literal key string "quotes_sent". -/
def kQuotesSent : List Char := ['q','u','o','t','e','s','_','s','e','n','t']

/-- The literal key string "quotes_accepted". -/
def kQuotesAccepted : List Char := ['q','u','o','t','e','s','_','a','c','c','e','p','t','e','d']

/-- The literal key string "treatments_started". -/
def kTreatmentsStarted : List Char := ['t','r','e','a','t','m','e','n','t','s','_','s','t','a','r','t','e','d']

/-- The literal key string "treatments_completed". -/
def kTreatmentsCompleted : List Char := ['t','r','e','a','t','m','e','n','t','s','_','c','o','m','p','l','e','t','e','d']

/-- The literal key string "inquiry_to_appointment_rate". -/
def kInquiryToAppointmentRate : List Char := ['i','n','q','u','i','r','y','_','t','o','_','a','p','p','o','i','n','t','m','e','n','t','_','r','a','t','e']

/-- The literal key string "appointment_to_treatment_rate". -/
def kAppointmentToTreatmentRate : List Char := ['a','p','p','o','i','n','t','m','e','n','t','_','t','o','_','t','r','e','a','t','m','e','n','t','_','r','a','t','e']

/-- The literal key string "quote_to_treatment_rate". -/
def kQuoteToTreatmentRate : List Char := ['q','u','o','t','e','_','t','o','_','t','r','e','a','t','m','e','n','t','_','r','a','t','e']

/-- The literal key string "overall_conversion_rate". -/
def kOverallConversionRate : List Char := ['o','v','e','r','a','l','l','_','c','o','n','v','e','r','s','i','o','n','_','r','a','t','e']

/-- The literal key string "consultations". -/
def kConsultations : List Char := ['c','o','n','s','u','l','t','a','t','i','o','n','s']

/-- The literal key string "treatments". -/
def kTreatments : List Char := ['t','r','e','a','t','m','e','n','t','s']

/-- The literal key string "consultation_conversion_rate". -/
def kConsultationConversionRate : List Char := ['c','o','n','s','u','l','t','a','t','i','o','n','_','c','o','n','v','e','r','s','i','o','n','_','r','a','t','e']

/-- The literal key string "treatment_conversion_rate". -/
def kTreatmentConversionRate : List Char := ['t','r','e','a','t','m','e','n','t','_','c','o','n','v','e','r','s','i','o','n','_','r','a','t','e']
/-- The `ConversionFunnel` pydantic model (`app/models/analytics.py`,
lines 69-88): every field is required. -/
structure ConversionFunnel where
  period_start : Int
  period_end : Int
  total_inquiries : Int
  scheduled_appointments : Int
  completed_appointments : Int
  evaluations_done : Int
  quotes_sent : Int
  quotes_accepted : Int
  treatments_started : Int
  treatments_completed : Int
  inquiry_to_appointment_rate : ℚ
  appointment_to_treatment_rate : ℚ
  quote_to_treatment_rate : ℚ
  overall_conversion_rate : ℚ

/-- The required field names of `ConversionFunnel`, in declaration order. -/
def conversionFunnelRequired : List (List Char) :=
  [kPeriodStart, kPeriodEnd, kTotalInquiries, kScheduledAppointments,
   kCompletedAppointments, kEvaluationsDone, kQuotesSent, kQuotesAccepted,
   kTreatmentsStarted, kTreatmentsCompleted, kInquiryToAppointmentRate,
   kAppointmentToTreatmentRate, kQuoteToTreatmentRate, kOverallConversionRate]

/-- Pydantic validation failure: the required fields absent from the
constructor's keyword arguments. -/
inductive PydanticError where
  | missingFields (fields : List (List Char))
  deriving DecidableEq

/-- Read a datetime-valued kwarg. -/
def getDt (kw : List (List Char × PyVal)) (k : List Char) : Option Int :=
  match kw.lookup k with
  | some (.pdt d) => some d
  | _ => none

/-- Read an int-valued kwarg. -/
def getInt (kw : List (List Char × PyVal)) (k : List Char) : Option Int :=
  match kw.lookup k with
  | some (.pint n) => some n
  | _ => none

/-- Read a float-valued kwarg (pydantic coerces int to float). -/
def getNum (kw : List (List Char × PyVal)) (k : List Char) : Option ℚ :=
  match kw.lookup k with
  | some (.pnum q) => some q
  | some (.pint n) => some (n : ℚ)
  | _ => none

/-- Populate a `ConversionFunnel` from constructor kwargs; `none` when a
required field is absent (extra kwargs are ignored, as pydantic does by
default). -/
def buildConversionFunnel (kw : List (List Char × PyVal)) : Option ConversionFunnel := do
  let ps ← getDt kw kPeriodStart
  let pe ← getDt kw kPeriodEnd
  let ti ← getInt kw kTotalInquiries
  let sa ← getInt kw kScheduledAppointments
  let ca ← getInt kw kCompletedAppointments
  let ev ← getInt kw kEvaluationsDone
  let qs ← getInt kw kQuotesSent
  let qa ← getInt kw kQuotesAccepted
  let ts ← getInt kw kTreatmentsStarted
  let tc ← getInt kw kTreatmentsCompleted
  let r1 ← getNum kw kInquiryToAppointmentRate
  let r2 ← getNum kw kAppointmentToTreatmentRate
  let r3 ← getNum kw kQuoteToTreatmentRate
  let r4 ← getNum kw kOverallConversionRate
  pure ⟨ps, pe, ti, sa, ca, ev, qs, qa, ts, tc, r1, r2, r3, r4⟩

/-- Pydantic model construction `ConversionFunnel(**kwargs)`: a populated
model, or a `ValidationError` naming the missing required fields. -/
def conversionFunnelValidate (kw : List (List Char × PyVal)) :
    Except PydanticError ConversionFunnel :=
  match buildConversionFunnel kw with
  | some f => .ok f
  | none => .error (.missingFields
      (conversionFunnelRequired.filter (fun k => (kw.lookup k).isNone)))

/-- Embedding of `AnalyticsService.analyze_conversion_funnel`
(`app/services/analytics_service.py`, lines 529-555): count inquiries,
consultations (status "completada") and treatments (truthy
`treatment_name`), compute the guarded conversion rates, then call the
`ConversionFunnel` constructor with exactly these keyword arguments. -/
def analyze_conversion_funnel (period_start period_end : Int)
    (appointments : List ApptA) : Except PydanticError ConversionFunnel :=
  let total_inquiries := appointments.length
  let consultations := (appointments.filter
    (fun a => a.status == some ['c','o','m','p','l','e','t','a','d','a'])).length
  let treatments := (appointments.filter (fun a => truthyStr a.treatment_name)).length
  conversionFunnelValidate
    [(kPeriodStart, .pdt period_start),
     (kPeriodEnd, .pdt period_end),
     (kTotalInquiries, .pint (total_inquiries : Int)),
     (kConsultations, .pint (consultations : Int)),
     (kTreatments, .pint (treatments : Int)),
     (kConsultationConversionRate, .pnum
       (if 0 < total_inquiries then (consultations : ℚ) / (total_inquiries : ℚ) * 100 else 0)),
     (kTreatmentConversionRate, .pnum
       (if 0 < consultations then (treatments : ℚ) / (consultations : ℚ) * 100 else 0)),
     (kOverallConversionRate, .pnum
       (if 0 < total_inquiries then (treatments : ℚ) / (total_inquiries : ℚ) * 100 else 0))]


/-! ### Route handlers (`app/api/routes/patients.py`, `facturas.py`) -/

/-- The literal string "Paciente no encontrado". -/
def dNoPaciente : List Char := ['P','a','c','i','e','n','t','e',' ','n','o',' ','e','n','c','o','n','t','r','a','d','o']

/-- The literal string "Factura no encontrada". -/
def dNoFactura : List Char := ['F','a','c','t','u','r','a',' ','n','o',' ','e','n','c','o','n','t','r','a','d','a']

/-- The literal string "ID de paciente inválido". -/
def dIdPacienteInvalido : List Char := ['I','D',' ','d','e',' ','p','a','c','i','e','n','t','e',' ','i','n','v','á','l','i','d','o']

/-- The literal string "ID de factura invalido". -/
def dIdFacturaInvalido : List Char := ['I','D',' ','d','e',' ','f','a','c','t','u','r','a',' ','i','n','v','a','l','i','d','o']

/-- The literal string "No se pueden editar facturas emitidas o pagadas". -/
def dNoEditable : List Char := ['N','o',' ','s','e',' ','p','u','e','d','e','n',' ','e','d','i','t','a','r',' ','f','a','c','t','u','r','a','s',' ','e','m','i','t','i','d','a','s',' ','o',' ','p','a','g','a','d','a','s']

/-- The literal string "anulada". -/
def sAnulada : List Char := ['a','n','u','l','a','d','a']

/-- An HTTP error raised via FastAPI's `HTTPException`: status code and
detail message. -/
structure HTTPError where
  status : Nat
  detail : List Char
  deriving DecidableEq

/-- Model of `bson.ObjectId.is_valid` on a string: exactly 24 hexadecimal digits. -/
def isValidObjectId (s : List Char) : Bool :=
  s.length == 24 && s.all (fun c => c.isDigit || ('a' ≤ c && c ≤ 'f') || ('A' ≤ c && c ≤ 'F'))

/-- A stored patient document: its `_id` and its remaining payload. -/
structure PatientDoc where
  id : List Char
  datos : List (List Char × List Char)
  deriving DecidableEq

/-- A stored invoice document as the factura routes touch it: `_id`,
`estado`, `updated_at`, and the remaining fields as a payload. -/
structure FacturaDocR where
  id : List Char
  estado : List Char
  updated_at : Int
  otros : List (List Char × List Char)
  deriving DecidableEq

/-- Embedding of `get_patient` (`app/api/routes/patients.py`, lines 34-47). -/
def get_patient (patient_id : List Char) (db : List PatientDoc) :
    Except HTTPError PatientDoc :=
  if !isValidObjectId patient_id then .error ⟨400, dIdPacienteInvalido⟩
  else
    match db.find? (fun p => p.id == patient_id) with
    | none => .error ⟨404, dNoPaciente⟩
    | some p => .ok p

/-- Mongo's `delete_one`: remove the first matching document, reporting
`deleted_count`. -/
def delete_one (p : α → Bool) : List α → List α × Nat
  | [] => ([], 0)
  | a :: t =>
    if p a then (t, 1)
    else
      let r := delete_one p t
      (a :: r.1, r.2)

/-- Embedding of `delete_patient` (`app/api/routes/patients.py`, lines 92-105):
`delete_one` runs first; a zero deleted count becomes a 404. -/
def delete_patient (patient_id : List Char) (db : List PatientDoc) :
    List PatientDoc × Except HTTPError Unit :=
  if !isValidObjectId patient_id then (db, .error ⟨400, dIdPacienteInvalido⟩)
  else
    let r := delete_one (fun p => p.id == patient_id) db
    if r.2 == 0 then (r.1, .error ⟨404, dNoPaciente⟩) else (r.1, .ok ())

/-- Embedding of `obtener_factura` (`app/api/routes/facturas.py`, lines 131-159). -/
def obtener_factura (factura_id : List Char) (db : List FacturaDocR) :
    Except HTTPError FacturaDocR :=
  if !isValidObjectId factura_id then .error ⟨400, dIdFacturaInvalido⟩
  else
    match db.find? (fun f => f.id == factura_id) with
    | none => .error ⟨404, dNoFactura⟩
    | some f => .ok f

/-- The `$set` content sent by `actualizar_factura`: the not-None fields of
the `FacturaUpdate` body — an optional new `estado` plus the other updated
keys. -/
structure FacturaUpdateData where
  estado : Option (List Char)
  otros : List (List Char × List Char)

/-- Set one key of an association-list document (replace or append). -/
def setKey (fs : List (List Char × List Char)) (k v : List Char) :
    List (List Char × List Char) :=
  if fs.any (fun kv => kv.1 == k) then
    fs.map (fun kv => if kv.1 == k then (k, v) else kv)
  else fs ++ [(k, v)]

/-- Apply several key updates in order. -/
def setKeys (fs : List (List Char × List Char)) (upds : List (List Char × List Char)) :
    List (List Char × List Char) :=
  upds.foldl (fun acc kv => setKey acc kv.1 kv.2) fs

/-- The effect of `update_one` with `$set` of the update body plus a fresh
`updated_at` on one invoice document. -/
def aplicarUpdate (now : Int) (upd : FacturaUpdateData) (d : FacturaDocR) : FacturaDocR :=
  { d with estado := upd.estado.getD d.estado,
           otros := setKeys d.otros upd.otros,
           updated_at := now }

/-- Mongo's `update_one`: rewrite the first matching document. -/
def updateFirst (p : α → Bool) (f : α → α) : List α → List α
  | [] => []
  | a :: t => if p a then f a :: t else a :: updateFirst p f t

/-- Embedding of `actualizar_factura` (`app/api/routes/facturas.py`, lines 162-209):
invalid id → 400; unknown id → 404; estado "emitida"/"pagada" → 400 before
any write; otherwise `$set` the update on the document and re-read it. -/
def actualizar_factura (now : Int) (factura_id : List Char)
    (upd : FacturaUpdateData) (db : List FacturaDocR) :
    List FacturaDocR × Except HTTPError FacturaDocR :=
  if !isValidObjectId factura_id then (db, .error ⟨400, dIdFacturaInvalido⟩)
  else
    match db.find? (fun f => f.id == factura_id) with
    | none => (db, .error ⟨404, dNoFactura⟩)
    | some f =>
      if estadoFacturada f.estado then (db, .error ⟨400, dNoEditable⟩)
      else
        let db' := updateFirst (fun g => g.id == factura_id) (aplicarUpdate now upd) db
        match db'.find? (fun g => g.id == factura_id) with
        | some f' => (db', .ok f')
        | none => (db', .error ⟨500, []⟩)

/-- Embedding of `anular_factura` (`app/api/routes/facturas.py`, lines 212-246):
invalid id → 400; unknown id → 404; otherwise `$set` only
`estado = "anulada"` and `updated_at` on the first matching document. -/
def anular_factura (now : Int) (factura_id : List Char) (db : List FacturaDocR) :
    List FacturaDocR × Except HTTPError (List Char) :=
  if !isValidObjectId factura_id then (db, .error ⟨400, dIdFacturaInvalido⟩)
  else
    match db.find? (fun f => f.id == factura_id) with
    | none => (db, .error ⟨404, dNoFactura⟩)
    | some _ =>
      (updateFirst (fun f => f.id == factura_id)
        (fun d => { d with estado := sAnulada, updated_at := now }) db,
       .ok factura_id)

/-- A well-formed 24-hex-char ObjectId made of 'a's. -/
def oidA : List Char := List.replicate 24 'a'

/-- A well-formed 24-hex-char ObjectId made of 'b's. -/
def oidB : List Char := List.replicate 24 'b'

/-- A concrete stored invoice in estado "borrador". -/
def facturaBorrador : FacturaDocR :=
  { id := oidB, estado := ['b','o','r','r','a','d','o','r'], updated_at := 0,
    otros := [(['n','u','m','e','r','o'], ['F','1'])] }

/-- A concrete stored invoice in estado "emitida". -/
def facturaEmitida : FacturaDocR :=
  { id := oidA, estado := ['e','m','i','t','i','d','a'], updated_at := 0,
    otros := [] }


/-! ## Theorems -/

example : round2 (104/1000) = 10/100 := by norm_num [round2, roundHalfEven]
example : round2 (12584/100000) = 13/100 := by norm_num [round2, roundHalfEven]
example : round2 (125/1000) = 12/100 := by norm_num [round2, roundHalfEven]
example : round2 (135/1000) = 14/100 := by norm_num [round2, roundHalfEven]
example :
    calcular_linea_factura ['x'] 1 (104/1000) (['2','1']) 0 =
      .ok { concepto := ['x'], cantidad := 1, precio_unitario := 104/1000,
            descuento := 0, tipo_iva := ['2','1'], base_imponible := 10/100,
            cuota_iva := 2/100, total_linea := 13/100 } := by
  norm_num [calcular_linea_factura, validarLineaFactura, lineaFacturaViolations,
    tipoIvaPermitido, iva_porcentaje, List.lookup, round2, roundHalfEven]

theorem roundHalfEven_intCast (k : ℤ) : roundHalfEven (k : ℚ) = k := by
  unfold roundHalfEven
  norm_num

theorem round2_isCents {x : ℚ} (h : IsCents x) : round2 x = x := by
  obtain ⟨k, rfl⟩ := h
  unfold round2
  rw [show (100 : ℚ) * ((k : ℚ) / 100) = (k : ℚ) by ring_nf]
  rw [roundHalfEven_intCast]

theorem isCents_zero : IsCents 0 := ⟨0, by norm_num⟩

theorem isCents_add {x y : ℚ} (hx : IsCents x) (hy : IsCents y) : IsCents (x + y) := by
  obtain ⟨k, rfl⟩ := hx
  obtain ⟨m, rfl⟩ := hy
  exact ⟨k + m, by push_cast; ring⟩

theorem isCents_sum {l : List ℚ} (h : ∀ x ∈ l, IsCents x) : IsCents l.sum := by
  induction l with
  | nil => simpa using isCents_zero
  | cons a t ih =>
    simp only [List.sum_cons]
    exact isCents_add (h a (by simp)) (ih (fun x hx => h x (by simp [hx])))

theorem sum_total_linea_eq (lineas : List LineaFactura)
    (hp : ∀ l ∈ lineas, l.total_linea = l.base_imponible + l.cuota_iva) :
    (lineas.map (fun l => l.total_linea)).sum
      = (lineas.map (fun l => l.base_imponible)).sum
          + (lineas.map (fun l => l.cuota_iva)).sum := by
  induction lineas with
  | nil => simp
  | cons a t ih =>
    simp only [List.map_cons, List.sum_cons]
    rw [hp a (by simp), ih (fun l hl => hp l (by simp [hl]))]
    ring

theorem lookup_iva_eq_tasaIvaSpec (t : List Char) :
    (iva_porcentaje.lookup t).getD (21/100) = tasaIvaSpec t := by
  by_cases e1 : t = ['2','1']
  · simp [iva_porcentaje, tasaIvaSpec, List.lookup, beq_eq_decide, e1]
  · by_cases e2 : t = ['1','0']
    · simp [iva_porcentaje, tasaIvaSpec, List.lookup, beq_eq_decide, e1, e2]
    · by_cases e3 : t = ['4']
      · simp [iva_porcentaje, tasaIvaSpec, List.lookup, beq_eq_decide, e1, e2, e3]
      · by_cases e4 : t = ['0']
        · simp [iva_porcentaje, tasaIvaSpec, List.lookup, beq_eq_decide, e1, e2, e3, e4]
        · by_cases e5 : t = ['e','x','e','n','t','o']
          · simp [iva_porcentaje, tasaIvaSpec, List.lookup, beq_eq_decide, e1, e2, e3, e4, e5]
          · simp [iva_porcentaje, tasaIvaSpec, List.lookup, beq_eq_decide, e1, e2, e3, e4, e5]

/-- C1 (amended).  For every non-empty list of invoice lines,
`calcular_totales_factura` returns `subtotal`, `total_iva` and
`total_factura` equal to the rounded sums of the lines' `base_imponible`,
`cuota_iva` and `total_linea` respectively; and, provided every line
satisfies `total_linea = base_imponible + cuota_iva` with both summands
exact two-decimal amounts (as the lines built by `calcular_linea_factura`
and stored on invoices are), the totals satisfy
`total_factura = subtotal + total_iva`. -/
theorem calcular_totales_factura_spec (lineas : List LineaFactura) (h : lineas ≠ []) :
    (calcular_totales_factura lineas).subtotal
        = round2 ((lineas.map (fun l => l.base_imponible)).sum) ∧
    (calcular_totales_factura lineas).total_iva
        = round2 ((lineas.map (fun l => l.cuota_iva)).sum) ∧
    (calcular_totales_factura lineas).total_factura
        = round2 ((lineas.map (fun l => l.total_linea)).sum) ∧
    ((∀ l ∈ lineas, l.total_linea = l.base_imponible + l.cuota_iva ∧
        IsCents l.base_imponible ∧ IsCents l.cuota_iva) →
      (calcular_totales_factura lineas).total_factura
        = (calcular_totales_factura lineas).subtotal
            + (calcular_totales_factura lineas).total_iva) := by
  refine ⟨rfl, rfl, rfl, fun hp => ?_⟩
  have hb : IsCents ((lineas.map (fun l => l.base_imponible)).sum) := by
    refine isCents_sum (fun x hx => ?_)
    obtain ⟨l, hl, rfl⟩ := List.mem_map.mp hx
    exact (hp l hl).2.1
  have hc : IsCents ((lineas.map (fun l => l.cuota_iva)).sum) := by
    refine isCents_sum (fun x hx => ?_)
    obtain ⟨l, hl, rfl⟩ := List.mem_map.mp hx
    exact (hp l hl).2.2
  have hsum := sum_total_linea_eq lineas (fun l hl => (hp l hl).1)
  simp only [calcular_totales_factura]
  rw [hsum, round2_isCents (isCents_add hb hc), round2_isCents hb, round2_isCents hc]

/-- C1 (counterexample).  The claim's final conjunct
`total_factura = subtotal + total_iva` fails for a line list whose
`total_linea` is not the sum of its `base_imponible` and `cuota_iva`:
the function sums the three stored columns independently. -/
theorem calcular_totales_factura_claim_counterexample :
    (calcular_totales_factura [lineaMismatch]).total_factura
      ≠ (calcular_totales_factura [lineaMismatch]).subtotal
        + (calcular_totales_factura [lineaMismatch]).total_iva := by
  norm_num [calcular_totales_factura, lineaMismatch, round2, roundHalfEven]

/-- Witness for C1 at a concrete one-line invoice. -/
theorem calcular_totales_factura_spec_witness :
    ([lineaEjemplo] ≠ ([] : List LineaFactura)) ∧
    (calcular_totales_factura [lineaEjemplo]).total_factura
      = (calcular_totales_factura [lineaEjemplo]).subtotal
        + (calcular_totales_factura [lineaEjemplo]).total_iva := by
  refine ⟨by simp, ?_⟩
  refine (calcular_totales_factura_spec _ (by simp)).2.2.2 (fun l hl => ?_)
  simp only [List.mem_singleton] at hl
  subst hl
  exact ⟨by norm_num [lineaEjemplo], ⟨100, by norm_num [lineaEjemplo]⟩,
    ⟨21, by norm_num [lineaEjemplo]⟩⟩

theorem roundHalfEven_nonneg {x : ℚ} (h : 0 ≤ x) : 0 ≤ roundHalfEven x := by
  have hf : (0:ℤ) ≤ ⌊x⌋ := Int.floor_nonneg.mpr h
  unfold roundHalfEven
  dsimp only
  split_ifs <;> omega

theorem round2_nonneg {x : ℚ} (h : 0 ≤ x) : 0 ≤ round2 x := by
  unfold round2
  have h1 := roundHalfEven_nonneg (show (0:ℚ) ≤ 100 * x by positivity)
  have h2 : (0:ℚ) ≤ (roundHalfEven (100 * x) : ℚ) := by exact_mod_cast h1
  positivity

theorem tasaIvaSpec_nonneg (t : List Char) : 0 ≤ tasaIvaSpec t := by
  unfold tasaIvaSpec
  split_ifs <;> norm_num

theorem validarLineaFactura_ok {l : LineaFactura} (h : lineaFacturaViolations l = []) :
    validarLineaFactura l = .ok l := by
  unfold validarLineaFactura
  rw [if_pos h]

theorem validarLineaFactura_error {l : LineaFactura} {fs : List (List Char)}
    (h : lineaFacturaViolations l = fs) (hne : fs ≠ []) :
    validarLineaFactura l = .error (.invalidFields fs) := by
  unfold validarLineaFactura
  rw [h, if_neg hne]

theorem lineaFacturaViolations_eq_tipo {l : LineaFactura}
    (h0 : 0 ≤ l.cantidad) (h1 : 0 ≤ l.precio_unitario)
    (h2 : 0 ≤ l.descuento) (h3 : l.descuento ≤ 100)
    (h4 : tipoIvaPermitido l.tipo_iva = false)
    (h5 : 0 ≤ l.base_imponible) (h6 : 0 ≤ l.cuota_iva) (h7 : 0 ≤ l.total_linea) :
    lineaFacturaViolations l = [['t','i','p','o','_','i','v','a']] := by
  unfold lineaFacturaViolations
  rw [if_pos h0, if_pos h1, if_pos ⟨h2, h3⟩, if_neg (by simp [h4]),
    if_pos h5, if_pos h6, if_pos h7]
  rfl

theorem lineaFacturaViolations_eq_nil {l : LineaFactura}
    (h0 : 0 ≤ l.cantidad) (h1 : 0 ≤ l.precio_unitario)
    (h2 : 0 ≤ l.descuento) (h3 : l.descuento ≤ 100)
    (h4 : tipoIvaPermitido l.tipo_iva = true)
    (h5 : 0 ≤ l.base_imponible) (h6 : 0 ≤ l.cuota_iva) (h7 : 0 ≤ l.total_linea) :
    lineaFacturaViolations l = [] := by
  unfold lineaFacturaViolations
  rw [if_pos h0, if_pos h1, if_pos ⟨h2, h3⟩, if_pos h4, if_pos h5, if_pos h6, if_pos h7]
  rfl

/-- C3 (amended).  For every line input with quantity `q ≥ 0`, unit price
`p ≥ 0`, discount `d ∈ [0,100]` and VAT type `t` among the five values the
`LineaFactura` model admits ("21", "10", "4", "0", "exento"),
`calcular_linea_factura` returns the line with
`base_imponible = round2 (q*p*(1-d/100))`, `cuota_iva = round2` of that
(unrounded) base times the rate given by `t` ("21"→0.21, "10"→0.10,
"4"→0.04, "0"→0, "exento"→0), and `total_linea = round2` of base plus
VAT. -/
theorem calcular_linea_factura_spec (concepto : List Char)
    (cantidad precio_unitario descuento : ℚ) (tipo_iva : List Char)
    (h0 : 0 ≤ cantidad) (h1 : 0 ≤ precio_unitario)
    (h2 : 0 ≤ descuento) (h3 : descuento ≤ 100)
    (h4 : tipo_iva ∈ [['2','1'], ['1','0'], ['4'], ['0'], ['e','x','e','n','t','o']]) :
    calcular_linea_factura concepto cantidad precio_unitario tipo_iva descuento
      = .ok { concepto := concepto, cantidad := cantidad,
              precio_unitario := precio_unitario, descuento := descuento,
              tipo_iva := tipo_iva,
              base_imponible := round2 (cantidad * precio_unitario * (1 - descuento / 100)),
              cuota_iva := round2 (cantidad * precio_unitario * (1 - descuento / 100)
                * tasaIvaSpec tipo_iva),
              total_linea := round2 (cantidad * precio_unitario * (1 - descuento / 100)
                + cantidad * precio_unitario * (1 - descuento / 100)
                  * tasaIvaSpec tipo_iva) } := by
  have hbase : cantidad * precio_unitario
      - (if 0 < descuento then cantidad * precio_unitario * (descuento / 100) else 0)
      = cantidad * precio_unitario * (1 - descuento / 100) := by
    by_cases hd : 0 < descuento
    · simp only [if_pos hd]; ring
    · have hz : descuento = 0 := le_antisymm (not_lt.mp hd) h2
      subst hz
      norm_num
  have hperm : tipoIvaPermitido tipo_iva = true := by
    simp only [List.mem_cons, List.not_mem_nil, or_false] at h4
    unfold tipoIvaPermitido
    rcases h4 with h | h | h | h | h <;> simp [h]
  have hraw : 0 ≤ cantidad * precio_unitario * (1 - descuento / 100) := by
    apply mul_nonneg (mul_nonneg h0 h1)
    have hd1 : descuento / 100 ≤ 1 := by linarith
    linarith
  have hcuo : 0 ≤ cantidad * precio_unitario * (1 - descuento / 100) * tasaIvaSpec tipo_iva :=
    mul_nonneg hraw (tasaIvaSpec_nonneg tipo_iva)
  have htot : 0 ≤ cantidad * precio_unitario * (1 - descuento / 100)
      + cantidad * precio_unitario * (1 - descuento / 100) * tasaIvaSpec tipo_iva :=
    add_nonneg hraw hcuo
  simp only [calcular_linea_factura, lookup_iva_eq_tasaIvaSpec, hbase]
  exact validarLineaFactura_ok
    (lineaFacturaViolations_eq_nil h0 h1 h2 h3 hperm
      (round2_nonneg hraw) (round2_nonneg hcuo) (round2_nonneg htot))

/-- C3 (counterexample).  The claim's "any other string → 0.21" conjunct is
false of the program: for the VAT type "7" the arithmetic does use the 21%
fallback rate, but the `LineaFactura` constructor then rejects "7" against
its `Literal["21", "10", "4", "0", "exento"]` field type, so the Python
function raises a pydantic `ValidationError` instead of returning a line. -/
theorem calcular_linea_factura_claim_counterexample :
    calcular_linea_factura ['x'] 1 1 (['7']) 0
      = .error (.invalidFields [['t','i','p','o','_','i','v','a']]) := by
  have hlk : ((iva_porcentaje.lookup ['7']).getD (21/100)) = 21/100 := rfl
  simp only [calcular_linea_factura, hlk]
  exact validarLineaFactura_error
    (lineaFacturaViolations_eq_tipo (by norm_num) (by norm_num) (by norm_num) (by norm_num)
      (by decide) (round2_nonneg (by norm_num)) (round2_nonneg (by norm_num))
      (round2_nonneg (by norm_num)))
    (by decide)

/-- Witness for C3 at quantity 2, price 50, discount 10, VAT type "10". -/
theorem calcular_linea_factura_spec_witness :
    ((0:ℚ) ≤ 2 ∧ (0:ℚ) ≤ 50 ∧ (0:ℚ) ≤ 10 ∧ (10:ℚ) ≤ 100 ∧
      (['1','0'] : List Char) ∈ [['2','1'], ['1','0'], ['4'], ['0'], ['e','x','e','n','t','o']]) ∧
    calcular_linea_factura ['a'] 2 50 (['1','0']) 10
      = .ok { concepto := ['a'], cantidad := 2, precio_unitario := 50, descuento := 10,
              tipo_iva := ['1','0'],
              base_imponible := round2 (2 * 50 * (1 - 10 / 100)),
              cuota_iva := round2 (2 * 50 * (1 - 10 / 100) * tasaIvaSpec ['1','0']),
              total_linea := round2 (2 * 50 * (1 - 10 / 100)
                + 2 * 50 * (1 - 10 / 100) * tasaIvaSpec ['1','0']) } :=
  ⟨⟨by decide, by decide, by decide, by decide, by decide⟩,
   calcular_linea_factura_spec ['a'] 2 50 10 (['1','0'])
     (by decide) (by decide) (by decide) (by decide) (by decide)⟩

theorem toDigitsCore_eq_bigDigits :
    ∀ (fuel n : Nat) (acc : List Char), n < fuel →
      Nat.toDigitsCore 10 fuel n acc = bigDigits n ++ acc := by
  intro fuel
  induction fuel with
  | zero => intro n acc h; omega
  | succ f ih =>
    intro n acc h
    rw [Nat.toDigitsCore]
    by_cases hn : n / 10 = 0
    · have hlt : n < 10 := (Nat.div_eq_zero_iff (by norm_num)).mp hn
      rw [if_pos hn]
      by_cases h0 : n = 0
      · subst h0; rfl
      · unfold bigDigits
        rw [if_neg h0, Nat.digits_def' (by norm_num : (1:ℕ) < 10) (Nat.pos_of_ne_zero h0), hn]
        simp [Nat.mod_eq_of_lt hlt]
    · have hpos : 0 < n := Nat.pos_of_ne_zero (fun e => by simp [e] at hn)
      have hstep : n / 10 < f :=
        lt_of_lt_of_le (Nat.div_lt_self hpos (by norm_num)) (Nat.lt_succ_iff.mp h)
      rw [if_neg hn, ih (n / 10) (Nat.digitChar (n % 10) :: acc) hstep]
      have hsplit : bigDigits n = bigDigits (n / 10) ++ [Nat.digitChar (n % 10)] := by
        unfold bigDigits
        rw [if_neg (Nat.pos_iff_ne_zero.mp hpos), if_neg hn]
        rw [Nat.digits_def' (by norm_num : (1:ℕ) < 10) hpos]
        simp
      rw [hsplit, List.append_assoc]
      rfl

theorem toDigits_eq_bigDigits (n : Nat) : Nat.toDigits 10 n = bigDigits n := by
  unfold Nat.toDigits
  rw [toDigitsCore_eq_bigDigits (n + 1) n [] (Nat.lt_succ_self n), List.append_nil]

theorem digitChar_toNat {d : Nat} (h : d < 10) : (Nat.digitChar d).toNat = 48 + d := by
  interval_cases d <;> rfl

theorem digitChar_isDigit {d : Nat} (h : d < 10) : (Nat.digitChar d).isDigit = true := by
  interval_cases d <;> rfl

theorem mem_bigDigits_isDigit {n : Nat} : ∀ c ∈ bigDigits n, c.isDigit = true := by
  intro c hc
  unfold bigDigits at hc
  by_cases h0 : n = 0
  · rw [if_pos h0] at hc
    simp only [List.mem_singleton] at hc
    subst hc; rfl
  · rw [if_neg h0] at hc
    rw [List.mem_reverse, List.mem_map] at hc
    obtain ⟨d, hd, rfl⟩ := hc
    exact digitChar_isDigit (Nat.digits_lt_base (by norm_num) hd)

theorem bigDigits_ne_nil (n : Nat) : bigDigits n ≠ [] := by
  unfold bigDigits
  by_cases h0 : n = 0
  · simp [h0]
  · rw [if_neg h0]
    simp [Nat.digits_ne_nil_iff_ne_zero.mpr h0]

theorem foldl_digits_rev (ds : List Nat) (h : ∀ d ∈ ds, d < 10) (a : Nat) :
    ((ds.map Nat.digitChar).reverse).foldl (fun x c => x * 10 + (c.toNat - 48)) a
      = a * 10 ^ ds.length + Nat.ofDigits 10 ds := by
  induction ds generalizing a with
  | nil => simp
  | cons d t ih =>
    simp only [List.map_cons, List.reverse_cons, List.foldl_append, List.foldl_cons,
      List.foldl_nil]
    rw [ih (fun x hx => h x (by simp [hx])) a]
    rw [digitChar_toNat (h d (by simp))]
    have hd48 : 48 + d - 48 = d := by omega
    rw [hd48, Nat.ofDigits_cons]
    simp only [List.length_cons, pow_succ]
    push_cast
    ring

theorem foldl_bigDigits (n a : Nat) :
    (bigDigits n).foldl (fun x c => x * 10 + (c.toNat - 48)) a
      = a * 10 ^ (bigDigits n).length + n := by
  by_cases h0 : n = 0
  · subst h0
    simp [bigDigits]
  · unfold bigDigits
    rw [if_neg h0]
    rw [foldl_digits_rev _ (fun d hd => Nat.digits_lt_base (by norm_num) hd) a]
    rw [Nat.ofDigits_digits]
    simp

theorem foldl_zeros (k : Nat) :
    (List.replicate k '0').foldl (fun x c => x * 10 + (c.toNat - 48)) 0 = 0 := by
  induction k with
  | zero => rfl
  | succ m ih => simpa [List.replicate_succ] using ih

theorem pyInt?_pad4 (m : Nat) : pyInt? (pad4 m) = some m := by
  unfold pyInt? pad4
  rw [toDigits_eq_bigDigits]
  have hne : (List.replicate (4 - (bigDigits m).length) '0' ++ bigDigits m) ≠ [] := by
    simp [bigDigits_ne_nil m]
  have hdig : (List.replicate (4 - (bigDigits m).length) '0' ++ bigDigits m).all
      (fun c => c.isDigit) = true := by
    rw [List.all_append, Bool.and_eq_true]
    refine ⟨?_, ?_⟩
    · rw [List.all_eq_true]
      intro c hc
      rw [List.eq_of_mem_replicate hc]
      rfl
    · rw [List.all_eq_true]
      exact fun c hc => mem_bigDigits_isDigit c hc
  rw [if_neg (by simpa [List.isEmpty_iff] using hne), if_pos hdig]
  rw [List.foldl_append, foldl_zeros, foldl_bigDigits]
  simp

theorem splitOnP_go_no_sep (p : Char → Bool) :
    ∀ (b acc : List Char), (∀ x ∈ b, p x = false) →
      List.splitOnP.go p b acc = [acc.reverse ++ b] := by
  intro b
  induction b with
  | nil => intro acc h; simp [List.splitOnP.go]
  | cons x t ih =>
    intro acc h
    rw [List.splitOnP.go, h x (by simp)]
    rw [ih (x :: acc) (fun y hy => h y (by simp [hy]))]
    simp

theorem splitOnP_go_sep (p : Char → Bool) (s : Char) (hs : p s = true) :
    ∀ (a b acc : List Char), (∀ x ∈ a, p x = false) →
      List.splitOnP.go p (a ++ s :: b) acc
        = (acc.reverse ++ a) :: List.splitOnP.go p b [] := by
  intro a
  induction a with
  | nil =>
    intro b acc h
    rw [List.nil_append, List.splitOnP.go, hs]
    simp
  | cons x t ih =>
    intro b acc h
    rw [List.cons_append, List.splitOnP.go, h x (by simp)]
    rw [ih b (x :: acc) (fun y hy => h y (by simp [hy]))]
    simp

theorem splitOn_dash_pair (a b : List Char) (ha : ∀ x ∈ a, x ≠ '-')
    (hb : ∀ x ∈ b, x ≠ '-') :
    (a ++ '-' :: b).splitOn '-' = [a, b] := by
  unfold List.splitOn List.splitOnP
  rw [splitOnP_go_sep (fun x => x == '-') '-' (by simp) a b []
    (fun x hx => by simp [ha x hx])]
  rw [splitOnP_go_no_sep (fun x => x == '-') b [] (fun x hx => by simp [hb x hx])]
  simp

/-- C2 (amended).  `generar_numero_factura serie anio n` always returns
"F{anio}-{serie}" followed by `n+1` zero-padded to (at least) 4 digits; and
whenever the series is a single character other than "-", the extraction
performed by `crear_factura` (split on "-", take the second part, drop its
first character, parse as int) recovers exactly `n+1`, so consecutive
creations in the same series and year increment the number by one. -/
theorem generar_numero_factura_spec (serie : List Char) (anio n : Nat) :
    generar_numero_factura serie anio n
      = ('F' :: Nat.toDigits 10 anio) ++ ('-' :: (serie ++ pad4 (n + 1))) ∧
    (serie.length = 1 → serie ≠ ['-'] →
      extraerUltimoNumero (generar_numero_factura serie anio n) = n + 1) := by
  refine ⟨rfl, fun hlen hne => ?_⟩
  obtain ⟨c, rfl⟩ := List.length_eq_one.mp hlen
  have hc : c ≠ '-' := fun e => hne (by rw [e])
  have hpadDigits : ∀ x ∈ pad4 (n + 1), x ≠ '-' := by
    intro x hx
    unfold pad4 at hx
    rw [toDigits_eq_bigDigits] at hx
    rcases List.mem_append.mp hx with h | h
    · rw [List.eq_of_mem_replicate h]; decide
    · intro e
      have := mem_bigDigits_isDigit x h
      rw [e] at this
      exact absurd this (by decide)
  have hleft : ∀ x ∈ 'F' :: Nat.toDigits 10 anio, x ≠ '-' := by
    intro x hx
    rcases List.mem_cons.mp hx with h | h
    · rw [h]; decide
    · rw [toDigits_eq_bigDigits] at h
      intro e
      have := mem_bigDigits_isDigit x h
      rw [e] at this
      exact absurd this (by decide)
  have hright : ∀ x ∈ [c] ++ pad4 (n + 1), x ≠ '-' := by
    intro x hx
    rcases List.mem_append.mp hx with h | h
    · rw [List.mem_singleton.mp h]; exact hc
    · exact hpadDigits x h
  unfold extraerUltimoNumero generar_numero_factura
  rw [splitOn_dash_pair ('F' :: Nat.toDigits 10 anio) ([c] ++ pad4 (n + 1)) hleft hright]
  simp only [List.getElem?_cons_succ, List.getElem?_cons_zero, Option.some.injEq]
  rw [List.cons_append, List.drop_succ_cons, List.drop_zero, List.nil_append, pyInt?_pad4]
  rfl

/-- C2 (counterexample).  With the two-character series "AB" the extraction
used by `crear_factura` does not recover `n+1`: for `n = 0` the generated
number is "F2025-AB0001", the second dash-separated part is "AB0001",
dropping one character leaves "B0001", and `int("B0001")` raises, which the
route catches and turns into 0 — not 1. -/
theorem generar_numero_factura_claim_counterexample :
    extraerUltimoNumero (generar_numero_factura ['A','B'] 2025 0) ≠ 0 + 1 := by
  decide

/-- Witness for C2 with series "A", year 2025 and last-used number 7. -/
theorem generar_numero_factura_spec_witness :
    ((['A'] : List Char).length = 1 ∧ (['A'] : List Char) ≠ ['-']) ∧
    extraerUltimoNumero (generar_numero_factura ['A'] 2025 7) = 7 + 1 :=
  ⟨⟨by decide, by decide⟩,
   (generar_numero_factura_spec ['A'] 2025 7).2 (by decide) (by decide)⟩

/-- C4.  The VERIFACTU hash is a deterministic function of exactly the five
core fields: any two invoice dictionaries that agree on `numero`,
`fecha_emision`, the emitter's `nif`, the receiver's `nombre_completo` and
`total_factura` receive the same SHA-256 hex digest, whatever their
`lineas`, `subtotal`, `estado` or any other field. -/
theorem generar_hash_verifactu_core_fields (f1 f2 : FacturaData)
    (h1 : f1.numero = f2.numero)
    (h2 : f1.fecha_emision = f2.fecha_emision)
    (h3 : f1.emisor_nif = f2.emisor_nif)
    (h4 : f1.receptor_nombre = f2.receptor_nombre)
    (h5 : f1.total_factura = f2.total_factura) :
    generar_hash_verifactu f1 = generar_hash_verifactu f2 := by
  unfold generar_hash_verifactu campos_hash
  rw [h1, h2, h3, h4, h5]

/-- Witness for C4: two dictionaries sharing the five core fields but
differing in `lineas`, `subtotal`, `estado` and extra keys hash alike. -/
theorem generar_hash_verifactu_core_fields_witness :
    (facturaDataA.numero = facturaDataB.numero ∧
     facturaDataA.fecha_emision = facturaDataB.fecha_emision ∧
     facturaDataA.emisor_nif = facturaDataB.emisor_nif ∧
     facturaDataA.receptor_nombre = facturaDataB.receptor_nombre ∧
     facturaDataA.total_factura = facturaDataB.total_factura ∧
     facturaDataA.estado ≠ facturaDataB.estado) ∧
    generar_hash_verifactu facturaDataA = generar_hash_verifactu facturaDataB :=
  ⟨⟨rfl, rfl, rfl, rfl, rfl, by decide⟩,
   generar_hash_verifactu_core_fields facturaDataA facturaDataB rfl rfl rfl rfl rfl⟩

theorem ltv_filter_pointwise (p : Patient) (f : FacturaDocA) :
    ((f.receptor_nombre == p.name) && (f.receptor_nombre.isSome && estadoFacturada f.estado))
      = atribuidaA p f := by
  unfold atribuidaA
  cases hr : f.receptor_nombre with
  | none => simp
  | some b =>
    cases hn : p.name with
    | none => simp
    | some a =>
      have hba : (b == a) = (a == b) := by
        rw [Bool.eq_iff_iff]
        simp only [beq_iff_eq]
        exact eq_comm
      simp [hba, Bool.and_comm]

/-- C5.  A patient's lifetime value is the cumulative amount billed to that
patient: `calculate_patient_ltv` returns the rounded sum of
`total_factura` over the invoices whose estado is "emitida" or "pagada"
and that are attributed (by receptor name) to the patient found under the
given id, and returns 0 when no patient with that id exists. -/
theorem calculate_patient_ltv_spec (patient_id : List Char) (db : AnalyticsDB) :
    calculate_patient_ltv patient_id db
      = match db.patients.find? (fun p => p.id == patient_id) with
        | none => 0
        | some p =>
          round2 (((db.facturas.filter (atribuidaA p)).map
            (fun f => f.total_factura.getD 0)).sum) := by
  unfold calculate_patient_ltv
  cases hfind : db.patients.find? (fun p => p.id == patient_id) with
  | none => rfl
  | some p =>
    simp only [List.filter_filter]
    rw [List.filter_congr (fun f _ => ltv_filter_pointwise p f)]

theorem pyMaxByDate_date (a : Appointment) (rest : List Appointment) :
    (pyMaxByDate a rest).date = rest.foldl (fun m x => max m x.date) a.date := by
  induction rest generalizing a with
  | nil => rfl
  | cons x t ih =>
    unfold pyMaxByDate
    simp only [List.foldl_cons]
    rw [show ((if a.date < x.date then x else a) : Appointment)
        = pyMaxByDate (if a.date < x.date then x else a) [] from rfl]
    have step : (if a.date < x.date then x else a).date = max a.date x.date := by
      by_cases h : a.date < x.date
      · rw [if_pos h, max_eq_right (le_of_lt h)]
      · rw [if_neg h, max_eq_left (not_lt.mp h)]
    calc (t.foldl (fun best x => if best.date < x.date then x else best)
            (if a.date < x.date then x else a)).date
        = (pyMaxByDate (if a.date < x.date then x else a) t).date := rfl
      _ = t.foldl (fun m y => max m y.date) (if a.date < x.date then x else a).date :=
          ih (if a.date < x.date then x else a)
      _ = t.foldl (fun m y => max m y.date) (max a.date x.date) := by rw [step]

/-- C6.  Churn risk is the three-valued label derived from time since the
last visit versus the average visit interval: "alto" on an empty
appointment list; otherwise, with `m` the latest appointment date,
"alto" when the average interval is positive and
(days since last)/average > 2, "medio" when it is positive and the ratio
is > 1.5, "medio" when the visit count is below 3, and "bajo" in every
remaining case. -/
theorem calculate_churn_risk_spec (now : Int) (visits : Nat) (avg_days : ℚ)
    (appointments : List Appointment) :
    (calculate_churn_risk now visits avg_days [] = ['a','l','t','o']) ∧
    (∀ m : Int, (appointments.map (fun a => a.date)).max? = some m →
      calculate_churn_risk now visits avg_days appointments
        = if 0 < avg_days ∧ 2 < ((now - m : Int) : ℚ) / avg_days then ['a','l','t','o']
          else if 0 < avg_days ∧ 3/2 < ((now - m : Int) : ℚ) / avg_days then ['m','e','d','i','o']
          else if visits < 3 then ['m','e','d','i','o']
          else ['b','a','j','o']) := by
  refine ⟨rfl, fun m hm => ?_⟩
  cases appointments with
  | nil => simp [List.max?] at hm
  | cons a rest =>
    have hm' : m = rest.foldl (fun acc x => max acc x.date) a.date := by
      simp only [List.map_cons, List.max?, List.foldl_map] at hm
      exact (Option.some.injEq _ _ ▸ hm).symm
    simp only [calculate_churn_risk]
    rw [pyMaxByDate_date, ← hm']

/-- Witness for C6: two visits on days 10 and 20, evaluated on day 60 with
a 10-day average interval — ratio 4, hence "alto". -/
theorem calculate_churn_risk_spec_witness :
    (([Appointment.mk 10, Appointment.mk 20].map (fun a => a.date)).max? = some 20) ∧
    calculate_churn_risk 60 5 10 [Appointment.mk 10, Appointment.mk 20]
      = if 0 < (10:ℚ) ∧ 2 < ((60 - 20 : Int) : ℚ) / 10 then ['a','l','t','o']
        else if 0 < (10:ℚ) ∧ 3/2 < ((60 - 20 : Int) : ℚ) / 10 then ['m','e','d','i','o']
        else if (5:Nat) < 3 then ['m','e','d','i','o']
        else ['b','a','j','o'] :=
  ⟨rfl, (calculate_churn_risk_spec 60 5 10 [Appointment.mk 10, Appointment.mk 20]).2 20 rfl⟩

/-- C7 (code evaluated at the failing input — in fact at every input).
`analyze_conversion_funnel` is never total: the `ConversionFunnel`
constructor call at `app/services/analytics_service.py` lines 545-555
passes the keywords `consultations`, `treatments`,
`consultation_conversion_rate` and `treatment_conversion_rate`, which are
not fields of the `ConversionFunnel` model (`app/models/analytics.py`,
lines 69-88), and omits ten of its required fields, so pydantic raises a
`ValidationError` for every appointment list. -/
theorem analyze_conversion_funnel_always_fails (period_start period_end : Int)
    (appointments : List ApptA) :
    analyze_conversion_funnel period_start period_end appointments
      = .error (.missingFields
          [kScheduledAppointments, kCompletedAppointments, kEvaluationsDone,
           kQuotesSent, kQuotesAccepted, kTreatmentsStarted, kTreatmentsCompleted,
           kInquiryToAppointmentRate, kAppointmentToTreatmentRate,
           kQuoteToTreatmentRate]) := rfl

theorem find?_key_eq_none {α : Type} (key : α → List Char) (v : List Char) (l : List α)
    (h : ∀ d ∈ l, key d ≠ v) : l.find? (fun d => key d == v) = none := by
  rw [List.find?_eq_none]
  intro x hx
  simp only [beq_iff_eq]
  exact h x hx

theorem delete_one_of_none {α : Type} (p : α → Bool) :
    ∀ l : List α, (∀ a ∈ l, p a = false) → delete_one p l = (l, 0) := by
  intro l
  induction l with
  | nil => intro _; rfl
  | cons a t ih =>
    intro h
    unfold delete_one
    rw [h a (by simp)]
    simp only [Bool.false_eq_true, if_false]
    rw [ih (fun x hx => h x (by simp [hx]))]

theorem updateFirst_length {α : Type} (p : α → Bool) (f : α → α) :
    ∀ l : List α, (updateFirst p f l).length = l.length := by
  intro l
  induction l with
  | nil => rfl
  | cons a t ih =>
    unfold updateFirst
    by_cases hp : p a
    · simp [hp]
    · simp [hp, ih]

theorem updateFirst_getElem? {α : Type} (p : α → Bool) (f : α → α) :
    ∀ (l : List α) (i : Nat),
      ((updateFirst p f l)[i]? = l[i]?) ∨
      (∃ a, l[i]? = some a ∧ p a = true ∧ (updateFirst p f l)[i]? = some (f a)) := by
  intro l
  induction l with
  | nil => intro i; left; rfl
  | cons x t ih =>
    intro i
    unfold updateFirst
    by_cases hp : p x
    · rw [if_pos hp]
      cases i with
      | zero => right; exact ⟨x, by simp, hp, by simp⟩
      | succ j => left; simp
    · rw [if_neg hp]
      cases i with
      | zero => left; simp
      | succ j => simpa using ih j

theorem updateFirst_append {α : Type} (p : α → Bool) (f : α → α)
    (l1 l2 : List α) (d : α) (h1 : ∀ x ∈ l1, p x = false) (hd : p d = true) :
    updateFirst p f (l1 ++ d :: l2) = l1 ++ f d :: l2 := by
  induction l1 with
  | nil =>
    rw [List.nil_append, List.nil_append]
    unfold updateFirst
    rw [if_pos hd]
  | cons x t ih =>
    rw [List.cons_append, List.cons_append]
    unfold updateFirst
    rw [if_neg (by rw [h1 x (by simp)]; exact Bool.false_ne_true)]
    rw [ih (fun y hy => h1 y (by simp [hy]))]

theorem find?_first_match {α : Type} (p : α → Bool) (l1 l2 : List α) (d : α)
    (h1 : ∀ x ∈ l1, p x = false) (hd : p d = true) :
    (l1 ++ d :: l2).find? p = some d := by
  induction l1 with
  | nil =>
    rw [List.nil_append]
    exact List.find?_cons_of_pos _ hd
  | cons x t ih =>
    rw [List.cons_append]
    rw [List.find?_cons_of_neg _ (by rw [h1 x (by simp)]; exact Bool.false_ne_true)]
    exact ih (fun y hy => h1 y (by simp [hy]))

/-- C8.  Read, update and delete operations fail with a 404 "not found"
error when the id is a well-formed ObjectId matching no stored document,
leaving the database unchanged, and fail with a 400 error when the id is
not a well-formed ObjectId (also leaving it unchanged). -/
theorem crud_not_found_spec (pid fid : List Char) (dbp : List PatientDoc)
    (dbf : List FacturaDocR) (upd : FacturaUpdateData) (now : Int) :
    (isValidObjectId pid = true → (∀ d ∈ dbp, d.id ≠ pid) →
      get_patient pid dbp = .error ⟨404, dNoPaciente⟩ ∧
      delete_patient pid dbp = (dbp, .error ⟨404, dNoPaciente⟩)) ∧
    (isValidObjectId fid = true → (∀ d ∈ dbf, d.id ≠ fid) →
      obtener_factura fid dbf = .error ⟨404, dNoFactura⟩ ∧
      actualizar_factura now fid upd dbf = (dbf, .error ⟨404, dNoFactura⟩) ∧
      anular_factura now fid dbf = (dbf, .error ⟨404, dNoFactura⟩)) ∧
    (isValidObjectId pid = false →
      get_patient pid dbp = .error ⟨400, dIdPacienteInvalido⟩ ∧
      delete_patient pid dbp = (dbp, .error ⟨400, dIdPacienteInvalido⟩)) ∧
    (isValidObjectId fid = false →
      obtener_factura fid dbf = .error ⟨400, dIdFacturaInvalido⟩ ∧
      actualizar_factura now fid upd dbf = (dbf, .error ⟨400, dIdFacturaInvalido⟩) ∧
      anular_factura now fid dbf = (dbf, .error ⟨400, dIdFacturaInvalido⟩)) := by
  refine ⟨fun hv hn => ?_, fun hv hn => ?_, fun hv => ?_, fun hv => ?_⟩
  · have hfind := find?_key_eq_none (fun d => d.id) pid dbp hn
    have hdel := delete_one_of_none (fun d => d.id == pid) dbp
      (fun a ha => by simpa [beq_iff_eq] using hn a ha)
    constructor
    · simp [get_patient, hv, hfind]
    · simp [delete_patient, hv, hdel]
  · have hfind := find?_key_eq_none (fun d => d.id) fid dbf hn
    refine ⟨?_, ?_, ?_⟩
    · simp [obtener_factura, hv, hfind]
    · simp [actualizar_factura, hv, hfind]
    · simp [anular_factura, hv, hfind]
  · constructor
    · simp [get_patient, hv]
    · simp [delete_patient, hv]
  · refine ⟨?_, ?_, ?_⟩
    · simp [obtener_factura, hv]
    · simp [actualizar_factura, hv]
    · simp [anular_factura, hv]

/-- Witness for C8: a valid unknown id on empty collections gives 404 with
the state unchanged; a malformed id gives 400. -/
theorem crud_not_found_spec_witness :
    (get_patient oidA [] = .error ⟨404, dNoPaciente⟩ ∧
     delete_patient oidA [] = ([], .error ⟨404, dNoPaciente⟩)) ∧
    (obtener_factura oidB [] = .error ⟨404, dNoFactura⟩ ∧
     actualizar_factura 0 oidB ⟨none, []⟩ [] = ([], .error ⟨404, dNoFactura⟩) ∧
     anular_factura 0 oidB [] = ([], .error ⟨404, dNoFactura⟩)) ∧
    (get_patient ['z'] [] = .error ⟨400, dIdPacienteInvalido⟩ ∧
     obtener_factura ['z'] [] = .error ⟨400, dIdFacturaInvalido⟩) :=
  ⟨(crud_not_found_spec oidA oidB [] [] ⟨none, []⟩ 0).1 (by decide) (by simp),
   (crud_not_found_spec oidA oidB [] [] ⟨none, []⟩ 0).2.1 (by decide) (by simp),
   ((crud_not_found_spec ['z'] ['z'] [] [] ⟨none, []⟩ 0).2.2.1 (by decide)).1,
   ((crud_not_found_spec ['z'] ['z'] [] [] ⟨none, []⟩ 0).2.2.2 (by decide)).1⟩

/-- C9.  Invoices already emitted or paid are immutable through the update
endpoint: when the stored invoice found under the given id has estado
"emitida" or "pagada", `actualizar_factura` rejects the request with a 400
error before performing any write, leaving the whole collection (hence the
stored invoice) unchanged. -/
theorem actualizar_factura_inmutable (now : Int) (fid : List Char)
    (upd : FacturaUpdateData) (db : List FacturaDocR) (f : FacturaDocR)
    (hv : isValidObjectId fid = true)
    (hf : db.find? (fun d => d.id == fid) = some f)
    (he : f.estado = ['e','m','i','t','i','d','a'] ∨ f.estado = ['p','a','g','a','d','a']) :
    actualizar_factura now fid upd db = (db, .error ⟨400, dNoEditable⟩) := by
  have hest : estadoFacturada f.estado = true := by
    rcases he with h | h <;> simp [estadoFacturada, h]
  simp [actualizar_factura, hv, hf, hest]

/-- Witness for C9: updating a stored "emitida" invoice is rejected with a
400 and the collection is returned unchanged. -/
theorem actualizar_factura_inmutable_witness :
    actualizar_factura 7 oidA ⟨none, []⟩ [facturaEmitida]
      = ([facturaEmitida], .error ⟨400, dNoEditable⟩) :=
  actualizar_factura_inmutable 7 oidA ⟨none, []⟩ [facturaEmitida] facturaEmitida
    (by decide) (by decide) (Or.inl rfl)

/-- C10.  Deleting an invoice never removes it: `anular_factura` preserves
the number of stored invoice documents; every stored document is either
completely unchanged or — only when its `_id` is the targeted one — has
exactly its `estado` set to "anulada" and its `updated_at` refreshed, all
other fields intact; and when the id is valid and a first match exists,
that first match is indeed rewritten that way. -/
theorem anular_factura_spec (now : Int) (fid : List Char) (db : List FacturaDocR) :
    ((anular_factura now fid db).1.length = db.length) ∧
    (∀ i : Nat,
      ((anular_factura now fid db).1[i]? = db[i]?) ∨
      (∃ d, db[i]? = some d ∧ d.id = fid ∧
        (anular_factura now fid db).1[i]?
          = some { d with estado := sAnulada, updated_at := now })) ∧
    (∀ (l1 l2 : List FacturaDocR) (d : FacturaDocR),
      db = l1 ++ d :: l2 → (∀ x ∈ l1, x.id ≠ fid) → d.id = fid →
      isValidObjectId fid = true →
      (anular_factura now fid db).1
        = l1 ++ { d with estado := sAnulada, updated_at := now } :: l2) := by
  refine ⟨?_, ?_, ?_⟩
  · unfold anular_factura
    by_cases hv : isValidObjectId fid
    · cases hfind : db.find? (fun f => f.id == fid) with
      | none => simp [hv, hfind]
      | some f => simp [hv, hfind, updateFirst_length]
    · simp [hv]
  · intro i
    unfold anular_factura
    by_cases hv : isValidObjectId fid
    · cases hfind : db.find? (fun f => f.id == fid) with
      | none => left; simp [hv, hfind]
      | some f =>
        simp only [hv, Bool.not_true, Bool.false_eq_true, if_false, hfind]
        rcases updateFirst_getElem? (fun g => g.id == fid)
            (fun d => { d with estado := sAnulada, updated_at := now }) db i with h | ⟨a, h1, h2, h3⟩
        · left; exact h
        · right; exact ⟨a, h1, by simpa [beq_iff_eq] using h2, h3⟩
    · left; simp [hv]
  · intro l1 l2 d hdb h1 hd hv
    subst hdb
    have hfind : (l1 ++ d :: l2).find? (fun g => g.id == fid) = some d :=
      find?_first_match _ l1 l2 d
        (fun x hx => by simpa [beq_iff_eq] using h1 x hx)
        (by simp [beq_iff_eq, hd])
    unfold anular_factura
    simp only [hv, Bool.not_true, Bool.false_eq_true, if_false, hfind]
    exact updateFirst_append _ _ l1 l2 d
      (fun x hx => by simpa [beq_iff_eq] using h1 x hx)
      (by simp [beq_iff_eq, hd])

/-- Witness for C10: annulling the second of two stored invoices keeps both
documents, rewriting only the target's `estado` and `updated_at`. -/
theorem anular_factura_spec_witness :
    (anular_factura 5 oidA [facturaBorrador, facturaEmitida]).1
      = [facturaBorrador,
         { facturaEmitida with estado := sAnulada, updated_at := 5 }] :=
  (anular_factura_spec 5 oidA [facturaBorrador, facturaEmitida]).2.2
    [facturaBorrador] [] facturaEmitida rfl (by decide) (by decide) (by decide)
